import Mathlib

/-!
Shallow embedding of the log-entry dispatch and enrichment pipeline of the
`logger` package (guest-logging-go): the entry model and rendering
(`logevent.go`), the MIG-label parser, `Init`, `Log` and `Close`
(`logger.go`), and the resource/label resolver described in the spec.

External collaborators (the cloud logging client, syslog, the clock, the
stack walker, the metadata service) are modelled as environments: a record
of the results those collaborators would return, passed to each operation.
Observable interactions with the collaborators are returned as an effect
trace.
-/

namespace GuestLogging

/-- Go `error` values, modelled by their message string. -/
abbrev GoError := String

/-- The internal five-level severity enum. Its declaring file is not under
src (only its uses in `logger.go` are); per those uses and the spec it is an
integer-backed enum with the five named levels. -/
abbrev Severity := Int

/-- Severity `Debug`. -/
def Debug : Severity := 0

/-- Severity `Info`. -/
def Info : Severity := 1

/-- Severity `Warning`. -/
def Warning : Severity := 2

/-- Severity `Error`. -/
def Error : Severity := 3

/-- Severity `Critical`. -/
def Critical : Severity := 4

/-- The cloud backend's native severity scale (`logging.Severity`), restricted
to the values `logger.go` can produce. -/
inductive CloudSeverity where
  | default
  | debug
  | info
  | warning
  | error
  | critical
deriving DecidableEq, Repr

/-- The `switch e.Severity` statement of `Log` (logger.go): maps the internal
severity to the cloud backend's severity; any value other than the five named
levels falls to the `default:` arm. -/
def mapCloudSeverity (s : Severity) : CloudSeverity :=
  if s = Debug then CloudSeverity.debug
  else if s = Info then CloudSeverity.info
  else if s = Warning then CloudSeverity.warning
  else if s = Error then CloudSeverity.error
  else if s = Critical then CloudSeverity.critical
  else CloudSeverity.default

/-- The `%s` rendering of a severity in the rendered line (logevent.go uses
the severity's `String()` method, which yields the upper-case level name, and
the decimal number for any other value). -/
def severityString (s : Severity) : String :=
  if s = Debug then "DEBUG"
  else if s = Info then "INFO"
  else if s = Warning then "WARNING"
  else if s = Error then "ERROR"
  else if s = Critical then "CRITICAL"
  else toString s

/-- Model of `logpb.LogEntrySourceLocation` as used by `caller` (logevent.go). -/
structure SourceLocation where
  File : String
  Line : Int
  Function : String
deriving DecidableEq, Repr

/-- An opaque structured payload value (`StructuredPayload interface{}`):
only its identity matters to the pipeline. -/
structure Structured where
  value : String
deriving DecidableEq, Repr

/-- Model of `LogEntry` (logevent.go): the caller-set fields plus the
enrichment-filled fields. The Go `Source` field is a pointer that is nil
until enrichment; the nil pointer is modelled by the zero location. -/
structure LogEntry where
  Message : String := ""
  Labels : List (String × String) := []
  CallDepth : Int := 0
  Severity : Severity := Debug
  LocalTimestamp : String := ""
  Source : SourceLocation := ⟨"", 0, ""⟩
  StructuredPayload : Option Structured := none
deriving DecidableEq, Repr

/-- Model of `logEntry.String()` (logevent.go): `<timestamp> <SEVERITY>
<file>:<line>: <message>` for Error/Critical, else
`<timestamp> <SEVERITY>: <message>`. -/
def logEntryString (e : LogEntry) : String :=
  if e.Severity = Error ∨ e.Severity = Critical then
    e.LocalTimestamp ++ " " ++ severityString e.Severity ++ " " ++
      e.Source.File ++ ":" ++ toString e.Source.Line ++ ": " ++ e.Message
  else
    e.LocalTimestamp ++ " " ++ severityString e.Severity ++ ": " ++ e.Message

/-- Go's `unicode.IsSpace`, the whitespace notion used by
`strings.TrimSpace`. -/
def isSpaceGo (c : Char) : Bool :=
  let n := c.toNat
  n = 9 || n = 10 || n = 11 || n = 12 || n = 13 || n = 32 || n = 0x85 ||
    n = 0xA0 || n = 0x1680 || (0x2000 ≤ n && n ≤ 0x200A) || n = 0x2028 ||
    n = 0x2029 || n = 0x202F || n = 0x205F || n = 0x3000

/-- Leading-whitespace trim on a character list. -/
def trimLeftChars (l : List Char) : List Char :=
  l.dropWhile isSpaceGo

/-- Trailing-whitespace trim on a character list. -/
def trimRightChars (l : List Char) : List Char :=
  (l.reverse.dropWhile isSpaceGo).reverse

/-- Model of `strings.TrimSpace`: trims leading and trailing whitespace. -/
def trimSpaceGo (s : String) : String :=
  String.mk (trimRightChars (trimLeftChars s.data))

/-- Model of `logEntry.Bytes()` (logevent.go): the rendered line passed through
`strings.TrimSpace`, with a single newline appended. The Go `[]byte` is the
UTF-8 encoding of this string. -/
def logEntryBytes (e : LogEntry) : String :=
  trimSpaceGo (logEntryString e) ++ "\n"

/-- A Go `map[string]string`, modelled as an association list with at most
one binding per key; `insertLabel` is `m[k] = v`. -/
def insertLabel (m : List (String × String)) (k v : String) :
    List (String × String) :=
  if m.any (fun p => p.1 == k) then
    m.map (fun p => if p.1 = k then (k, v) else p)
  else
    m ++ [(k, v)]

/-- Lookup (`m[k]`) in a label map. -/
def lookupLabel (m : List (String × String)) (k : String) : Option String :=
  (m.find? (fun p => p.1 == k)).map Prod.snd

/-- Constant `migNameLabel` (logger.go). -/
def migNameLabel : String := "compute.googleapis.com/instance_group_manager/name"

/-- Constant `migZoneLabel` (logger.go). -/
def migZoneLabel : String := "compute.googleapis.com/instance_group_manager/zone"

/-- Constant `migRegionLabel` (logger.go). -/
def migRegionLabel : String := "compute.googleapis.com/instance_group_manager/region"

/-- Splitting a character list at `/` separators; `n` separators yield
`n + 1` (possibly empty) segments. -/
def splitSlash : List Char → List (List Char)
  | [] => [[]]
  | c :: rest =>
    if c = '/' then [] :: splitSlash rest
    else (c :: (splitSlash rest).headI) :: (splitSlash rest).tail

/-- The anchored regular expression
`^projects/[^/]+/(zones|regions)/([^/]+)/instanceGroupManagers/([^/]+)$`
of `parseMIGLabels` (logger.go): it matches exactly the strings made of six
slash-separated segments `projects`, `<proj>`, `zones`-or-`regions`,
`<region-or-zone>`, `instanceGroupManagers`, `<name>` with the three
placeholder segments non-empty; on a match it returns the three capture
groups `(matches[1], matches[2], matches[3])`. -/
def migSubmatch (s : String) : Option (String × String × String) :=
  match splitSlash s.data with
  | [a, p, loc, z, b, n] =>
    if a = "projects".data ∧ (loc = "zones".data ∨ loc = "regions".data) ∧
        b = "instanceGroupManagers".data ∧ p ≠ [] ∧ z ≠ [] ∧ n ≠ [] then
      some (String.mk loc, String.mk z, String.mk n)
    else
      none
  | _ => none

/-- Model of `parseMIGLabels` (logger.go): empty input or a non-matching input yields
the empty map; a match stores the group name under `migNameLabel` and the
location under the zonal or regional location key picked by the `switch` on
the first capture group. -/
def parseMIGLabels (mig : String) : List (String × String) :=
  if mig = "" then []
  else
    match migSubmatch mig with
    | none => []
    | some (loc, z, n) =>
      let locationLabel :=
        if loc = "zones" then migZoneLabel
        else if loc = "regions" then migRegionLabel
        else ""
      insertLabel (insertLabel [] migNameLabel n) locationLabel z

/-- Model of `LogOpts` (logger.go). The format function and the writers are opaque
borrowed references, modelled by handles. -/
structure LogOpts where
  Debug : Bool := false
  ProjectName : String := ""
  LoggerName : String := ""
  DisableLocalLogging : Bool := false
  DisableCloudLogging : Bool := false
  FormatFunction : Option Nat := none
  Writers : List Nat := []
  UserAgent : String := ""
  MIG : String := ""
deriving DecidableEq, Repr

/-- The process-wide package globals of `logger.go`. The nil-ness of the
`cloudLoggingClient` and `cloudLogger` pointers is what the pipeline
observes; `cloudCommonLabels` records the common-label set the cloud logger
was created with (`logging.CommonLabels(labels)`). -/
structure LoggerState where
  cloudLoggingClient : Bool := false
  cloudLogger : Bool := false
  debugEnabled : Bool := false
  loggerName : String := ""
  formatFunction : Option Nat := none
  writers : List Nat := []
  cloudCommonLabels : List (String × String) := []
deriving DecidableEq, Repr

/-- The collaborator results a single `Log` call consumes: the clock
(`now()`) and the stack walker (`caller(depth)`). -/
structure LogEnv where
  nowResult : String := ""
  callerResult : SourceLocation := ⟨"", 0, ""⟩
deriving DecidableEq, Repr

/-- The payload handed to the cloud client: either the opaque structured
value alone, or the enriched entry itself. -/
inductive CloudPayload where
  | structured (v : Structured)
  | entry (e : LogEntry)
deriving DecidableEq, Repr

/-- One observable sink interaction of a `Log` call. -/
inductive Effect where
  | localWrite (e : LogEntry)
  | writerWrite (w : Nat) (bytes : String)
  | cloudSubmit (sev : CloudSeverity) (src : SourceLocation)
      (payload : CloudPayload) (labels : List (String × String))
deriving DecidableEq, Repr

/-- The `if e.CallDepth == 0 { e.CallDepth = 2 }` defaulting in `Log`. -/
def defaultDepth (e : LogEntry) : LogEntry :=
  if e.CallDepth = 0 then { e with CallDepth := 2 } else e

/-- The enrichment assignments of `Log`: `e.LocalTimestamp = now()` and
`e.Source = caller(e.CallDepth)`. -/
def enrich (e : LogEntry) (env : LogEnv) : LogEntry :=
  { e with LocalTimestamp := env.nowResult, Source := env.callerResult }

/-- Model of `Log` (logger.go): the debug-suppression guard, call-depth defaulting,
enrichment, the local-sink write, the writer writes, and the guarded cloud
submission with severity mapping and payload selection. -/
def Log (st : LoggerState) (e : LogEntry) (env : LogEnv) : List Effect :=
  if e.Severity = Debug ∧ st.debugEnabled = false then []
  else
    let e2 := enrich (defaultDepth e) env
    Effect.localWrite e2 ::
      st.writers.map (fun w => Effect.writerWrite w (logEntryBytes e2)) ++
      (if st.cloudLogger then
        let payload :=
          match e2.StructuredPayload with
          | some v => CloudPayload.structured v
          | none => CloudPayload.entry e2
        [Effect.cloudSubmit (mapCloudSeverity e2.Severity) e2.Source payload
          e2.Labels]
      else [])

/-- The cloud submissions contained in an effect trace. -/
def cloudSubmits (trace : List Effect) : List Effect :=
  trace.filter fun ef =>
    match ef with
    | Effect.cloudSubmit _ _ _ _ => true
    | _ => false

/-- The collaborator results an `Init` call consumes: the outcome of
`localSetup` (syslog/eventlog), of `logging.NewClient`, and of
`metadata.InstanceName()` (`some name` when the lookup returns `err == nil`,
`none` when it errors). -/
structure InitEnv where
  localSetupError : Option GoError := none
  newClientError : Option GoError := none
  instanceNameResult : Option String := none
deriving DecidableEq, Repr

/-- One observable collaborator interaction of an `Init` call. -/
inductive InitEffect where
  | localSetup (name : String)
  | cloudNewClient (project : String) (userAgent : String)
  | errorf (msg : String)
  | flushLoopStart
deriving DecidableEq, Repr

/-- Model of `Init` (logger.go): validates the logger name, overwrites the
process-wide globals, sets up the local sink (fatal on failure), then
attempts cloud setup (non-fatal on failure), building the common-label map
from the instance name and the MIG labels and starting the periodic flush
loop. Returns the Go error, the new global state, and the effect trace. -/
def Init (st : LoggerState) (opts : LogOpts) (env : InitEnv) :
    Option GoError × LoggerState × List InitEffect :=
  if opts.LoggerName = "" then (some "logger name must be set", st, [])
  else
    let st1 : LoggerState :=
      { st with
        loggerName := opts.LoggerName
        debugEnabled := opts.Debug
        formatFunction := opts.FormatFunction
        writers := opts.Writers }
    let localTrace :=
      if opts.DisableLocalLogging = false then
        [InitEffect.localSetup opts.LoggerName]
      else []
    if opts.DisableLocalLogging = false ∧ env.localSetupError.isSome then
      (some ("logger Init localSetup error: " ++
          env.localSetupError.getD ""), st1, localTrace)
    else if opts.DisableCloudLogging = false ∧ opts.ProjectName ≠ "" then
      match env.newClientError with
      | some e =>
        (none, st1,
          localTrace ++
            [InitEffect.cloudNewClient opts.ProjectName opts.UserAgent,
             InitEffect.errorf
               ("Continuing without cloud logging due to error in initialization: "
                 ++ e)])
      | none =>
        let labels :=
          match env.instanceNameResult with
          | some name => insertLabel [] "instance_name" name
          | none => []
        let labels :=
          (parseMIGLabels opts.MIG).foldl
            (fun m kv => insertLabel m kv.1 kv.2) labels
        ((none : Option GoError),
          { st1 with
            cloudLoggingClient := true
            cloudLogger := true
            cloudCommonLabels := labels },
          localTrace ++
            [InitEffect.cloudNewClient opts.ProjectName opts.UserAgent,
             InitEffect.flushLoopStart])
    else (none, st1, localTrace)

/-- The collaborator results a `Close` call consumes. The two close errors
are produced by the collaborators but, per the source, never read: `Close`
has no return value and `localClose` (logger_unix.go) discards
`slWriter.Close()`'s error. -/
structure CloseEnv where
  pingError : Option GoError := none
  clientCloseError : Option GoError := none
  localCloseError : Option GoError := none
deriving DecidableEq, Repr

/-- One observable collaborator interaction of a `Close` call. -/
inductive CloseEffect where
  | ping (timeoutSeconds : Nat)
  | warningf (msg : String)
  | flush
  | clientClose
  | localClose
deriving DecidableEq, Repr

/-- Model of `Close` (logger.go): when a cloud client exists, pings it with a
3-second timeout; on ping failure logs a warning and skips the flush, on
success flushes and closes the client; in every case then calls
`localClose`. The Go function returns nothing. -/
def Close (st : LoggerState) (env : CloseEnv) : List CloseEffect :=
  (if st.cloudLoggingClient then
    CloseEffect.ping 3 ::
      (match env.pingError with
      | some e =>
        [CloseEffect.warningf
          ("Cannot connect to cloud logging, skipping flush: " ++ e)]
      | none => [CloseEffect.flush, CloseEffect.clientClose])
  else []) ++ [CloseEffect.localClose]

/-- Modelled from the spec: the metadata provider capability set of §4.1
(the production implementation against the metadata service is under src as
`metadataProvider`/`gceMetadataProvider`, but the resolver consuming it is
not). Each accessor returns an empty string, never an error, when the
lookup fails. -/
structure MetadataProvider where
  OnClusterNode : Bool := false
  OnCloudInstance : Bool := false
  InstanceName : String := ""
  InstanceID : String := ""
  Zone : String := ""
  ProjectID : String := ""
  ClusterName : String := ""
deriving DecidableEq, Repr

/-- A monitored-resource descriptor: a type tag and a label map. -/
structure ResourceDescriptor where
  type : String := ""
  labels : List (String × String) := []
deriving DecidableEq, Repr

/-- Modelled from the spec: the resource/label resolver of §4.2
(`resolve(provider) -> (ResourceDescriptor, commonLabels)`), whose
implementation is not under src (only the `metadataProvider` interface it
consumes and its end-to-end test are): cluster nodes get the
"cluster-node" resource type with cluster/location/node/project labels and
no common labels; off-cloud hosts get an empty descriptor; bare compute
instances get the "cloud-compute-instance" type plus a common
`instance_name` label when the instance name is non-empty. -/
def resolve (p : MetadataProvider) :
    ResourceDescriptor × List (String × String) :=
  if p.OnClusterNode then
    (⟨"cluster-node",
      [("cluster_name", p.ClusterName), ("location", p.Zone),
       ("node_name", p.InstanceName), ("project_id", p.ProjectID)]⟩, [])
  else if p.OnCloudInstance = false then
    (⟨"", []⟩, [])
  else
    (⟨"cloud-compute-instance",
      [("instance_id", p.InstanceID), ("project_id", p.ProjectID),
       ("zone", p.Zone)]⟩,
      if p.InstanceName ≠ "" then [("instance_name", p.InstanceName)] else [])

/-- An initialized state with an active cloud client, used as the concrete
input of the `Close` evaluations. -/
def closeProbeState : LoggerState :=
  { cloudLoggingClient := true, cloudLogger := true, loggerName := "daemon" }

/-- Concrete options enabling cloud logging, used by the `Init`
evaluations. -/
def cloudOpts : LogOpts :=
  { LoggerName := "daemon", ProjectName := "proj" }

/-- The spec's cluster-node example provider: zone "z", cluster "c",
instance name "n", project "p". -/
def clusterNodeProvider : MetadataProvider :=
  { OnClusterNode := true, OnCloudInstance := true, Zone := "z",
    ClusterName := "c", InstanceName := "n", ProjectID := "p" }

/-- A concrete enriched entry, used by the rendering evaluations. -/
def sampleErrorEntry : LogEntry :=
  { Message := "This is a log message.", Severity := Error,
    LocalTimestamp := "2020-01-02T15:04:05.999999Z",
    Source := ⟨"file.go", 82, "main.main"⟩ }

section Lemmas

/-- Lemma: `splitSlash` never returns the empty list of segments. -/
theorem splitSlash_ne_nil (l : List Char) : splitSlash l ≠ [] := by
  cases l with
  | nil => simp [splitSlash]
  | cons c rest =>
    unfold splitSlash
    split <;> simp

/-- Splitting a slash-free segment yields that single segment. -/
theorem splitSlash_noSlash (a : List Char) (h : '/' ∉ a) : splitSlash a = [a] := by
  induction a with
  | nil => rfl
  | cons c rest ih =>
    have hc : c ≠ '/' := fun e => h (e ▸ List.mem_cons_self _ _)
    have hr : '/' ∉ rest := fun hm => h (List.mem_cons_of_mem _ hm)
    rw [splitSlash, if_neg hc, ih hr]
    rfl

/-- Splitting peels one slash-free segment off the front. -/
theorem splitSlash_append (a b : List Char) (h : '/' ∉ a) :
    splitSlash (a ++ '/' :: b) = a :: splitSlash b := by
  induction a with
  | nil => simp [splitSlash]
  | cons c rest ih =>
    have hc : c ≠ '/' := fun e => h (e ▸ List.mem_cons_self _ _)
    have hr : '/' ∉ rest := fun hm => h (List.mem_cons_of_mem _ hm)
    show splitSlash (c :: (rest ++ '/' :: b)) = _
    rw [splitSlash, if_neg hc, ih hr]
    rfl

/-- Unfolding `lookupLabel` over a cons cell. -/
theorem lookupLabel_cons (p : String × String) (m : List (String × String))
    (k : String) :
    lookupLabel (p :: m) k = if p.1 == k then some p.2 else lookupLabel m k := by
  by_cases h : p.1 == k <;> simp [lookupLabel, List.find?_cons, h]

/-- Inserting under a key the head does not carry commutes with the head. -/
theorem insertLabel_cons_ne (p : String × String) (m : List (String × String))
    (k v : String) (hp : p.1 ≠ k) :
    insertLabel (p :: m) k v = p :: insertLabel m k v := by
  have hb : (p.1 == k) = false := by simp [hp]
  by_cases hm : m.any (fun q => q.1 == k) <;>
    simp [insertLabel, List.any_cons, hb, hm, hp]

/-- Looking up the inserted key finds the inserted value. -/
theorem lookupLabel_insert_self (m : List (String × String)) (k v : String) :
    lookupLabel (insertLabel m k v) k = some v := by
  induction m with
  | nil => simp [insertLabel, lookupLabel, List.find?_cons]
  | cons p m ih =>
    by_cases hp : p.1 = k
    · have hb : (p.1 == k) = true := by simp [hp]
      simp [insertLabel, List.any_cons, hb, hp, lookupLabel_cons]
    · rw [insertLabel_cons_ne p m k v hp]
      have hb : (p.1 == k) = false := by simp [hp]
      simp [lookupLabel_cons, hb, ih]

/-- Replacing the value under one key leaves lookups of other keys alone. -/
theorem lookupLabel_mapReplace_ne (m : List (String × String))
    (k kp v : String) (h : kp ≠ k) :
    lookupLabel (m.map (fun p => if p.1 = kp then (kp, v) else p)) k =
      lookupLabel m k := by
  induction m with
  | nil => rfl
  | cons p m ih =>
    by_cases hp : p.1 = kp
    · have h1 : (kp == k) = false := by simp [h]
      have h2 : (p.1 == k) = false := by simp [hp, h]
      simp [hp, lookupLabel_cons, h1, h2, ih]
    · by_cases h2 : p.1 == k <;> simp [hp, lookupLabel_cons, h2, ih]

/-- Appending a binding for one key leaves lookups of other keys alone. -/
theorem lookupLabel_append_ne (m : List (String × String))
    (k kp v : String) (h : kp ≠ k) :
    lookupLabel (m ++ [(kp, v)]) k = lookupLabel m k := by
  induction m with
  | nil => simp [lookupLabel, List.find?_cons, h]
  | cons p m ih =>
    by_cases hp : p.1 == k <;> simp [lookupLabel_cons, hp, ih]

/-- Inserting under one key leaves lookups of other keys alone. -/
theorem lookupLabel_insert_ne (m : List (String × String))
    (k kp v : String) (h : kp ≠ k) :
    lookupLabel (insertLabel m kp v) k = lookupLabel m k := by
  unfold insertLabel
  by_cases hm : m.any (fun q => q.1 == kp)
  · simpa [hm] using lookupLabel_mapReplace_ne m k kp v h
  · simpa [hm] using lookupLabel_append_ne m k kp v h

/-- Folding label insertions whose keys all differ from `k` leaves the
lookup of `k` alone. -/
theorem lookupLabel_foldl_insert (l base : List (String × String))
    (k : String) (h : ∀ kv ∈ l, kv.1 ≠ k) :
    lookupLabel (l.foldl (fun m kv => insertLabel m kv.1 kv.2) base) k =
      lookupLabel base k := by
  induction l generalizing base with
  | nil => rfl
  | cons kv l ih =>
    simp only [List.foldl_cons]
    rw [ih _ fun x hx => h x (List.mem_cons_of_mem _ hx)]
    exact lookupLabel_insert_ne _ _ _ _ (h kv (List.mem_cons_self _ _))

/-- Two successive insertions into the empty map under distinct keys. -/
theorem insertLabel_pair (L z n : String) (hBL : (migNameLabel == L) = false) :
    insertLabel (insertLabel [] migNameLabel n) L z =
      [(migNameLabel, n), (L, z)] := by
  simp [insertLabel, hBL]

/-- Every key produced by `parseMIGLabels` is one of the three MIG label
constants or the empty string; in particular none is `instance_name`. -/
theorem parseMIGLabels_keys (s : String) :
    ∀ kv ∈ parseMIGLabels s, kv.1 ≠ "instance_name" := by
  unfold parseMIGLabels
  by_cases h0 : s = ""
  · simp [h0]
  · rw [if_neg h0]
    cases hm : migSubmatch s with
    | none => simp
    | some t =>
      obtain ⟨loc, z, n⟩ := t
      dsimp only
      by_cases h1 : loc = "zones"
      · rw [if_pos h1, insertLabel_pair _ _ _ (by decide)]
        intro kv hkv
        rcases List.mem_cons.mp hkv with h | h
        · subst h; simp [migNameLabel]
        · rcases List.mem_cons.mp h with h | h
          · subst h; simp [migZoneLabel]
          · cases h
      · rw [if_neg h1]
        by_cases h2 : loc = "regions"
        · rw [if_pos h2, insertLabel_pair _ _ _ (by decide)]
          intro kv hkv
          rcases List.mem_cons.mp hkv with h | h
          · subst h; simp [migNameLabel]
          · rcases List.mem_cons.mp h with h | h
            · subst h; simp [migRegionLabel]
            · cases h
        · rw [if_neg h2, insertLabel_pair _ _ _ (by decide)]
          intro kv hkv
          rcases List.mem_cons.mp hkv with h | h
          · subst h; simp [migNameLabel]
          · rcases List.mem_cons.mp h with h | h
            · subst h; simp
            · cases h

/-- Call-depth defaulting and enrichment do not touch the severity. -/
theorem enrichDefault_Severity (e : LogEntry) (env : LogEnv) :
    (enrich (defaultDepth e) env).Severity = e.Severity := by
  unfold enrich defaultDepth
  split <;> rfl

/-- Call-depth defaulting and enrichment do not touch the labels. -/
theorem enrichDefault_Labels (e : LogEntry) (env : LogEnv) :
    (enrich (defaultDepth e) env).Labels = e.Labels := by
  unfold enrich defaultDepth
  split <;> rfl

/-- Call-depth defaulting and enrichment do not touch the structured
payload. -/
theorem enrichDefault_StructuredPayload (e : LogEntry) (env : LogEnv) :
    (enrich (defaultDepth e) env).StructuredPayload = e.StructuredPayload := by
  unfold enrich defaultDepth
  split <;> rfl

/-- Enrichment sets the source to the walked call site. -/
theorem enrichDefault_Source (e : LogEntry) (env : LogEnv) :
    (enrich (defaultDepth e) env).Source = env.callerResult := by
  unfold enrich defaultDepth
  split <;> rfl

/-- A local-sink write is not a cloud submission. -/
theorem cloudSubmits_cons_local (e : LogEntry) (l : List Effect) :
    cloudSubmits (Effect.localWrite e :: l) = cloudSubmits l := by
  simp [cloudSubmits, List.filter_cons]

/-- Lemma: `cloudSubmits` distributes over append. -/
theorem cloudSubmits_append (a b : List Effect) :
    cloudSubmits (a ++ b) = cloudSubmits a ++ cloudSubmits b := by
  simp [cloudSubmits, List.filter_append]

/-- Writer writes are not cloud submissions. -/
theorem cloudSubmits_writerWrites (ws : List Nat) (s : String) :
    cloudSubmits (ws.map fun w => Effect.writerWrite w s) = [] := by
  induction ws with
  | nil => rfl
  | cons w ws ih =>
    simp only [List.map_cons, cloudSubmits, List.filter_cons]
    exact ih

/-- A string whose data splits into the six MIG path segments is accepted
by the pattern with the expected capture groups, and is non-empty. -/
theorem migSubmatch_build (p z n loc : String)
    (hp1 : p.data ≠ []) (hp2 : '/' ∉ p.data)
    (hz1 : z.data ≠ []) (hz2 : '/' ∉ z.data)
    (hn1 : n.data ≠ []) (hn2 : '/' ∉ n.data)
    (hloc : loc = "zones" ∨ loc = "regions") (s : String)
    (hs : s.data =
      "projects".data ++ '/' :: (p.data ++ '/' :: (loc.data ++ '/' ::
        (z.data ++ '/' :: ("instanceGroupManagers".data ++ '/' :: n.data))))) :
    migSubmatch s = some (loc, z, n) ∧ s ≠ "" := by
  have hlocNoSlash : '/' ∉ loc.data := by
    rcases hloc with h | h <;> (subst h; decide)
  have hsplit : splitSlash s.data =
      ["projects".data, p.data, loc.data, z.data,
        "instanceGroupManagers".data, n.data] := by
    rw [hs, splitSlash_append _ _ (by decide), splitSlash_append _ _ hp2,
      splitSlash_append _ _ hlocNoSlash, splitSlash_append _ _ hz2,
      splitSlash_append _ _ (by decide), splitSlash_noSlash _ hn2]
  constructor
  · unfold migSubmatch
    rw [hsplit]
    have hcond : "projects".data = "projects".data ∧
        (loc.data = "zones".data ∨ loc.data = "regions".data) ∧
        "instanceGroupManagers".data = "instanceGroupManagers".data ∧
        p.data ≠ [] ∧ z.data ≠ [] ∧ n.data ≠ [] := by
      refine ⟨rfl, ?_, rfl, hp1, hz1, hn1⟩
      rcases hloc with h | h
      · exact Or.inl (by rw [h])
      · exact Or.inr (by rw [h])
    show (if "projects".data = "projects".data ∧
        (loc.data = "zones".data ∨ loc.data = "regions".data) ∧
        "instanceGroupManagers".data = "instanceGroupManagers".data ∧
        p.data ≠ [] ∧ z.data ≠ [] ∧ n.data ≠ [] then
      some ((⟨loc.data⟩ : String), (⟨z.data⟩ : String), (⟨n.data⟩ : String))
      else none) = some (loc, z, n)
    rw [if_pos hcond]
  · intro he
    have hnil : s.data = [] := by rw [he]
    rw [hnil] at hs
    have hlen := congrArg List.length hs
    simp [List.length_append] at hlen

/-- When a string starts with a non-whitespace character, `TrimSpace`
coincides with the trailing-whitespace trim. -/
theorem trimSpaceGo_eq_trimRight_of_head (s : String) (c : Char)
    (h : s.data.head? = some c) (hc : isSpaceGo c = false) :
    trimSpaceGo s = String.mk (trimRightChars s.data) := by
  cases hd : s.data with
  | nil => rw [hd] at h; cases h
  | cons a l =>
    rw [hd] at h
    injection h with h
    subst h
    unfold trimSpaceGo trimLeftChars
    rw [hd]
    simp [List.dropWhile_cons, hc]

/-- The rendered line starts with the first character of the timestamp. -/
theorem logEntryString_head (e : LogEntry) (c : Char) (cs : List Char)
    (hts : e.LocalTimestamp.data = c :: cs) :
    (logEntryString e).data.head? = some c := by
  unfold logEntryString
  split <;> simp [String.data_append, hts]

end Lemmas

section ClaimTheorems

/-- C1: for every entry of Debug severity, if the process-wide debug flag is
disabled then `Log` returns immediately with an empty effect trace: no
local-sink write, no writer write and no cloud submission occur, and since
the trace is empty for every clock/call-site environment `env`, the entry is
dropped before the timestamp and call-site enrichment is performed. -/
theorem Log_suppresses_debug (st : LoggerState) (e : LogEntry) (env : LogEnv)
    (hsev : e.Severity = Debug) (hdbg : st.debugEnabled = false) :
    Log st e env = [] := by
  unfold Log
  rw [if_pos ⟨hsev, hdbg⟩]

/-- Witness for C1 on a concrete state, entry and environment. -/
theorem Log_suppresses_debug_witness :
    Log { debugEnabled := false, cloudLogger := true, writers := [0] }
      { Message := "dbg", Severity := Debug }
      { nowResult := "2020-01-02T15:04:05.999999Z" } = [] :=
  Log_suppresses_debug _ _ _ rfl rfl

/-- C4: the severity switch applied before cloud submission is a total
function: each of the five internal levels maps to the cloud backend's
severity of the same name, and every other integer value falls through to
the backend's default severity instead of failing. -/
theorem mapCloudSeverity_total :
    mapCloudSeverity Debug = CloudSeverity.debug ∧
    mapCloudSeverity Info = CloudSeverity.info ∧
    mapCloudSeverity Warning = CloudSeverity.warning ∧
    mapCloudSeverity Error = CloudSeverity.error ∧
    mapCloudSeverity Critical = CloudSeverity.critical ∧
    ∀ s : Severity, s ≠ Debug → s ≠ Info → s ≠ Warning → s ≠ Error →
      s ≠ Critical → mapCloudSeverity s = CloudSeverity.default := by
  refine ⟨by decide, by decide, by decide, by decide, by decide, ?_⟩
  intro s h1 h2 h3 h4 h5
  unfold mapCloudSeverity
  rw [if_neg h1, if_neg h2, if_neg h3, if_neg h4, if_neg h5]

/-- Witness for C4 at the out-of-range severity value 7. -/
theorem mapCloudSeverity_total_witness :
    mapCloudSeverity 7 = CloudSeverity.default :=
  mapCloudSeverity_total.2.2.2.2.2 7 (by decide) (by decide) (by decide)
    (by decide) (by decide)

/-- C6: whenever `Log` dispatches to an active cloud client, it makes
exactly one cloud submission; its payload is the opaque structured value
alone when the entry carries one (so none of the entry's own fields are
duplicated into the payload), and otherwise the enriched entry itself. -/
theorem Log_cloud_payload (st : LoggerState) (e : LogEntry) (env : LogEnv)
    (hcloud : st.cloudLogger = true)
    (hns : ¬(e.Severity = Debug ∧ st.debugEnabled = false)) :
    cloudSubmits (Log st e env) =
      [Effect.cloudSubmit (mapCloudSeverity e.Severity) env.callerResult
        (match e.StructuredPayload with
          | some v => CloudPayload.structured v
          | none => CloudPayload.entry (enrich (defaultDepth e) env))
        e.Labels] := by
  unfold Log
  rw [if_neg hns]
  simp only [hcloud, if_true]
  rw [enrichDefault_StructuredPayload, cloudSubmits_append]
  cases e.StructuredPayload <;>
    simp [cloudSubmits_cons_local, cloudSubmits_writerWrites, cloudSubmits,
      List.filter_cons, enrichDefault_Severity, enrichDefault_Labels,
      enrichDefault_Source]

/-- Witness for C6 on a concrete dispatch carrying a structured payload. -/
theorem Log_cloud_payload_witness :
    cloudSubmits (Log { cloudLogger := true, debugEnabled := false }
        { Message := "m", Severity := Info,
          StructuredPayload := some ⟨"sp"⟩, Labels := [("k", "v")] }
        { nowResult := "t", callerResult := ⟨"f.go", 3, "fn"⟩ }) =
      [Effect.cloudSubmit CloudSeverity.info ⟨"f.go", 3, "fn"⟩
        (CloudPayload.structured ⟨"sp"⟩) [("k", "v")]] :=
  Log_cloud_payload _ _ _ rfl (by decide)

/-- C7 evaluation: `Close` on an initialized state behaves identically
whether or not the cloud-client close and the local-sink release fail — the
Go `Close` has no return value and `localClose` discards
`slWriter.Close()`'s error, so the error aggregation the claim promises is
returned nowhere. The remaining conjuncts evaluate the probe behavior: on a
successful 3-second ping the buffered entries are flushed and the client
handle released before the local sink is released; on a failed ping the
flush is skipped and a warning logged. -/
theorem Close_discards_close_errors :
    (Close closeProbeState
        { pingError := none, clientCloseError := some "client close failed",
          localCloseError := some "syslog close failed" } =
      Close closeProbeState {}) ∧
    Close closeProbeState {} =
      [CloseEffect.ping 3, CloseEffect.flush, CloseEffect.clientClose,
        CloseEffect.localClose] ∧
    Close closeProbeState { pingError := some "unreachable" } =
      [CloseEffect.ping 3,
        CloseEffect.warningf
          "Cannot connect to cloud logging, skipping flush: unreachable",
        CloseEffect.localClose] :=
  ⟨rfl, rfl, rfl⟩

/-- C9 (spec-modelled): a metadata provider reporting cluster-node
membership resolves to the "cluster-node" resource descriptor carrying the
cluster name, the zone as location, the instance name as node name and the
project id, and the resolver contributes no `instance_name` common label in
this branch. -/
theorem resolve_cluster_node (p : MetadataProvider)
    (h : p.OnClusterNode = true) :
    (resolve p).1.type = "cluster-node" ∧
    (resolve p).1.labels =
      [("cluster_name", p.ClusterName), ("location", p.Zone),
        ("node_name", p.InstanceName), ("project_id", p.ProjectID)] ∧
    lookupLabel (resolve p).2 "instance_name" = none := by
  simp [resolve, h, lookupLabel]

/-- Witness for C9 at the provider of the spec's cluster-node example. -/
theorem resolve_cluster_node_witness :
    (resolve clusterNodeProvider).1.type = "cluster-node" ∧
    (resolve clusterNodeProvider).1.labels =
      [("cluster_name", "c"), ("location", "z"), ("node_name", "n"),
        ("project_id", "p")] ∧
    lookupLabel (resolve clusterNodeProvider).2 "instance_name" = none :=
  resolve_cluster_node clusterNodeProvider rfl

/-- C3: `Init` returns a non-nil error exactly when the logger name is empty
or local-sink setup fails while local logging is enabled; the empty-name
check comes first, before any sink is opened (the effect trace is empty);
and whenever cloud-client creation fails past those checks, `Init` returns
nil with cloud forwarding left disabled. -/
theorem Init_error_iff (st : LoggerState) (opts : LogOpts) (env : InitEnv)
    (hfresh : st.cloudLogger = false) :
    ((Init st opts env).1 ≠ none ↔
      (opts.LoggerName = "" ∨
        (opts.DisableLocalLogging = false ∧ env.localSetupError ≠ none))) ∧
    (opts.LoggerName = "" → (Init st opts env).2.2 = []) ∧
    (opts.LoggerName ≠ "" →
      (opts.DisableLocalLogging = true ∨ env.localSetupError = none) →
      opts.DisableCloudLogging = false → opts.ProjectName ≠ "" →
      env.newClientError ≠ none →
      (Init st opts env).1 = none ∧
      (Init st opts env).2.1.cloudLogger = false) := by
  unfold Init
  by_cases h1 : opts.LoggerName = ""
  · simp [h1]
  · rw [if_neg h1]
    by_cases h2 : opts.DisableLocalLogging = false ∧ env.localSetupError.isSome
    · rw [if_pos h2]
      refine ⟨?_, by simp [h1], by
        intro _ hl _ _ _
        rcases hl with hl | hl
        · exact absurd h2.1 (by simp [hl])
        · exact absurd h2.2 (by simp [hl])⟩
      simp only [ne_eq, reduceCtorEq, not_false_eq_true, true_iff]
      right
      exact ⟨h2.1, Option.isSome_iff_ne_none.mp h2.2⟩
    · rw [if_neg h2]
      have hrhs : ¬(opts.LoggerName = "" ∨
          (opts.DisableLocalLogging = false ∧ env.localSetupError ≠ none)) := by
        rintro (h | h)
        · exact h1 h
        · exact h2 ⟨h.1, Option.isSome_iff_ne_none.mpr h.2⟩
      have hloc : opts.DisableLocalLogging = false →
          env.localSetupError = none := by
        intro ha
        cases he : env.localSetupError with
        | none => rfl
        | some e => exact absurd ⟨ha, by simp [he]⟩ h2
      by_cases h3 : opts.DisableCloudLogging = false ∧ opts.ProjectName ≠ ""
      · rw [if_pos h3]
        cases hc : env.newClientError with
        | some err =>
          simp [h1, hrhs, hfresh]
          exact hloc
        | none =>
          simp [h1, hrhs, hc]
          exact hloc
      · rw [if_neg h3]
        refine ⟨by simp [hrhs], by simp [h1], ?_⟩
        intro _ _ hdc hpn _
        exact absurd ⟨hdc, hpn⟩ h3

/-- Witness for C3: a configuration whose cloud-client creation fails still
makes `Init` return nil with cloud forwarding disabled. -/
theorem Init_error_iff_witness :
    (Init {} cloudOpts { newClientError := some "rpc unavailable" }).1 = none ∧
    (Init {} cloudOpts
        { newClientError := some "rpc unavailable" }).2.1.cloudLogger =
      false :=
  (Init_error_iff {} cloudOpts { newClientError := some "rpc unavailable" }
      rfl).2.2 (by decide) (Or.inr rfl) rfl (by decide) (by simp)

/-- C8 counterexample: when the metadata lookup succeeds but reports an
empty instance name (`metadata.InstanceName()` returning `("", nil)`), the
code still attaches an `instance_name` common label (with empty value),
because `Init` tests `err == nil`, not non-emptiness of the name — contrary
to the claim that no label is produced for an empty name. -/
theorem Init_instance_name_empty_counterexample :
    lookupLabel (Init {} cloudOpts
        { localSetupError := none, newClientError := none,
          instanceNameResult := some "" }).2.1.cloudCommonLabels
      "instance_name" = some "" := by
  decide

/-- C8 (amended): the `instance_name` common label is attached if and only
if the `metadata.InstanceName()` lookup succeeds (returns with `err == nil`);
its value is whatever name the lookup returned, possibly empty; when the
lookup fails no label is produced. -/
theorem Init_instance_name_label (st : LoggerState) (opts : LogOpts)
    (env : InitEnv) (h1 : opts.LoggerName ≠ "")
    (h2 : opts.DisableLocalLogging = true ∨ env.localSetupError = none)
    (h3 : opts.DisableCloudLogging = false) (h4 : opts.ProjectName ≠ "")
    (h5 : env.newClientError = none) :
    lookupLabel (Init st opts env).2.1.cloudCommonLabels "instance_name" =
      env.instanceNameResult := by
  unfold Init
  rw [if_neg h1]
  have hns : ¬(opts.DisableLocalLogging = false ∧
      env.localSetupError.isSome) := by
    rintro ⟨ha, hb⟩
    rcases h2 with h2 | h2
    · rw [h2] at ha; cases ha
    · rw [h2] at hb; cases hb
  rw [if_neg hns, if_pos ⟨h3, h4⟩, h5]
  cases hi : env.instanceNameResult with
  | none =>
    simp only
    rw [lookupLabel_foldl_insert _ _ _ (parseMIGLabels_keys opts.MIG)]
    rfl
  | some name =>
    simp only
    rw [lookupLabel_foldl_insert _ _ _ (parseMIGLabels_keys opts.MIG)]
    exact lookupLabel_insert_self _ _ _

/-- Witness for C8 (amended): a successful lookup yields the label, on the
concrete cloud configuration. -/
theorem Init_instance_name_label_witness :
    lookupLabel (Init {} cloudOpts
        { localSetupError := none, newClientError := none,
          instanceNameResult := some "gce-vm-1" }).2.1.cloudCommonLabels
      "instance_name" = some "gce-vm-1" :=
  Init_instance_name_label {} cloudOpts
    { localSetupError := none, newClientError := none,
      instanceNameResult := some "gce-vm-1" }
    (by decide) (Or.inr rfl) rfl (by decide) rfl

/-- C10: `Init` is not atomic on failure: when local-sink setup fails (and
the name check passed), the returned error leaves behind globals already
overwritten with the new options — logger name, debug flag, format function
and writer list; only the empty-name path returns with the state fully
unchanged. -/
theorem Init_partial_state (st : LoggerState) (opts : LogOpts)
    (env : InitEnv) :
    (opts.LoggerName = "" →
      (Init st opts env).1 ≠ none ∧ (Init st opts env).2.1 = st) ∧
    (opts.LoggerName ≠ "" → opts.DisableLocalLogging = false →
      env.localSetupError ≠ none →
      (Init st opts env).1 ≠ none ∧
      (Init st opts env).2.1.loggerName = opts.LoggerName ∧
      (Init st opts env).2.1.debugEnabled = opts.Debug ∧
      (Init st opts env).2.1.formatFunction = opts.FormatFunction ∧
      (Init st opts env).2.1.writers = opts.Writers) := by
  constructor
  · intro h1
    unfold Init
    simp [h1]
  · intro h1 h2 h3
    unfold Init
    rw [if_neg h1,
      if_pos ⟨h2, Option.isSome_iff_ne_none.mpr h3⟩]
    simp

/-- Witness for C10 on a concrete failing local setup. -/
theorem Init_partial_state_witness :
    (Init { loggerName := "old" }
        { LoggerName := "daemon", Debug := true, Writers := [7] }
        { localSetupError := some "syslog unavailable" }).1 ≠ none ∧
    (Init { loggerName := "old" }
        { LoggerName := "daemon", Debug := true, Writers := [7] }
        { localSetupError := some "syslog unavailable" }).2.1.loggerName =
      "daemon" ∧
    (Init { loggerName := "old" }
        { LoggerName := "daemon", Debug := true, Writers := [7] }
        { localSetupError := some "syslog unavailable" }).2.1.debugEnabled =
      true ∧
    (Init { loggerName := "old" }
        { LoggerName := "daemon", Debug := true, Writers := [7] }
        { localSetupError := some "syslog unavailable" }).2.1.formatFunction =
      none ∧
    (Init { loggerName := "old" }
        { LoggerName := "daemon", Debug := true, Writers := [7] }
        { localSetupError := some "syslog unavailable" }).2.1.writers =
      [7] :=
  (Init_partial_state { loggerName := "old" }
      { LoggerName := "daemon", Debug := true, Writers := [7] }
      { localSetupError := some "syslog unavailable" }).2
    (by decide) rfl (by simp)

/-- C5: for every enriched entry (its timestamp starts with a
non-whitespace character, as every clock output does), the rendered line is
`<timestamp> <SEVERITY> <file>:<line>: <message>` for Error/Critical
severities and `<timestamp> <SEVERITY>: <message>` for every other
severity, and the byte form is the rendered string trimmed of trailing
whitespace followed by exactly one trailing newline. -/
theorem logEntry_rendered_format (e : LogEntry) (c : Char) (cs : List Char)
    (hts : e.LocalTimestamp.data = c :: cs) (hc : isSpaceGo c = false) :
    ((e.Severity = Error ∨ e.Severity = Critical) →
      logEntryString e =
        e.LocalTimestamp ++ " " ++ severityString e.Severity ++ " " ++
          e.Source.File ++ ":" ++ toString e.Source.Line ++ ": " ++
          e.Message) ∧
    (¬(e.Severity = Error ∨ e.Severity = Critical) →
      logEntryString e =
        e.LocalTimestamp ++ " " ++ severityString e.Severity ++ ": " ++
          e.Message) ∧
    logEntryBytes e =
      String.mk (trimRightChars (logEntryString e).data) ++ "\n" := by
  refine ⟨fun h => by unfold logEntryString; rw [if_pos h],
    fun h => by unfold logEntryString; rw [if_neg h], ?_⟩
  unfold logEntryBytes
  rw [trimSpaceGo_eq_trimRight_of_head _ c (logEntryString_head e c cs hts) hc]

/-- Witness for C5 at a concrete Error-severity enriched entry. -/
theorem logEntry_rendered_format_witness :
    logEntryString sampleErrorEntry =
      "2020-01-02T15:04:05.999999Z ERROR file.go:82: This is a log message." ∧
    logEntryBytes sampleErrorEntry =
      "2020-01-02T15:04:05.999999Z ERROR file.go:82: This is a log message.\n" := by
  have h := logEntry_rendered_format sampleErrorEntry '2'
    "020-01-02T15:04:05.999999Z".data (by decide) (by decide)
  refine ⟨?_, ?_⟩
  · rw [h.1 (Or.inl rfl)]
    decide
  · rw [h.2.2]
    decide

/-- C2: `parseMIGLabels` on a well-formed zonal identifier
`projects/<proj>/zones/<zone>/instanceGroupManagers/<name>` yields exactly
two labels — the group name under the MIG name key and the zone under the
zonal location key; on the regional form it uses the distinct regional key;
and the empty string or any string rejected by the strict pattern yields the
empty map, with no error. The segment hypotheses say exactly that each
placeholder matches `[^/]+`. -/
theorem parseMIGLabels_spec (p z n : String)
    (hp1 : p.data ≠ []) (hp2 : '/' ∉ p.data)
    (hz1 : z.data ≠ []) (hz2 : '/' ∉ z.data)
    (hn1 : n.data ≠ []) (hn2 : '/' ∉ n.data) :
    parseMIGLabels
        ("projects/" ++ p ++ "/zones/" ++ z ++ "/instanceGroupManagers/" ++ n)
      = [(migNameLabel, n), (migZoneLabel, z)] ∧
    parseMIGLabels
        ("projects/" ++ p ++ "/regions/" ++ z ++ "/instanceGroupManagers/" ++ n)
      = [(migNameLabel, n), (migRegionLabel, z)] ∧
    parseMIGLabels "" = [] ∧
    ∀ s, migSubmatch s = none → parseMIGLabels s = [] := by
  have l1 : ("projects/" : String).data = "projects".data ++ ['/'] := by decide
  have l2 : ("/zones/" : String).data = '/' :: ("zones".data ++ ['/']) := by
    decide
  have l3 : ("/regions/" : String).data = '/' :: ("regions".data ++ ['/']) := by
    decide
  have l4 : ("/instanceGroupManagers/" : String).data =
      '/' :: ("instanceGroupManagers".data ++ ['/']) := by decide
  have hdz : ("projects/" ++ p ++ "/zones/" ++ z ++
      "/instanceGroupManagers/" ++ n).data =
      "projects".data ++ '/' :: (p.data ++ '/' :: ("zones".data ++ '/' ::
        (z.data ++ '/' :: ("instanceGroupManagers".data ++ '/' :: n.data)))) := by
    simp [String.data_append, l1, l2, l4, List.append_assoc]
  have hdr : ("projects/" ++ p ++ "/regions/" ++ z ++
      "/instanceGroupManagers/" ++ n).data =
      "projects".data ++ '/' :: (p.data ++ '/' :: ("regions".data ++ '/' ::
        (z.data ++ '/' :: ("instanceGroupManagers".data ++ '/' :: n.data)))) := by
    simp [String.data_append, l1, l3, l4, List.append_assoc]
  have hmz := migSubmatch_build p z n "zones" hp1 hp2 hz1 hz2 hn1 hn2
    (Or.inl rfl) _ hdz
  have hmr := migSubmatch_build p z n "regions" hp1 hp2 hz1 hz2 hn1 hn2
    (Or.inr rfl) _ hdr
  refine ⟨?_, ?_, rfl, ?_⟩
  · unfold parseMIGLabels
    rw [if_neg hmz.2, hmz.1]
    show (let locationLabel := if ("zones" : String) = "zones" then migZoneLabel
        else if ("zones" : String) = "regions" then migRegionLabel else ""
      insertLabel (insertLabel [] migNameLabel n) locationLabel z) = _
    rw [if_pos rfl]
    exact insertLabel_pair _ _ _ (by decide)
  · unfold parseMIGLabels
    rw [if_neg hmr.2, hmr.1]
    show (let locationLabel := if ("regions" : String) = "zones" then migZoneLabel
        else if ("regions" : String) = "regions" then migRegionLabel else ""
      insertLabel (insertLabel [] migNameLabel n) locationLabel z) = _
    rw [if_neg (by decide), if_pos rfl]
    exact insertLabel_pair _ _ _ (by decide)
  · intro s hnone
    unfold parseMIGLabels
    by_cases h0 : s = ""
    · rw [if_pos h0]
    · rw [if_neg h0, hnone]

/-- Witness for C2 at the spec's example inputs. -/
theorem parseMIGLabels_spec_witness :
    parseMIGLabels "projects/p1/zones/z1/instanceGroupManagers/g1" =
      [(migNameLabel, "g1"), (migZoneLabel, "z1")] ∧
    parseMIGLabels "projects/p1/regions/r1/instanceGroupManagers/g1" =
      [(migNameLabel, "g1"), (migRegionLabel, "r1")] ∧
    parseMIGLabels "" = [] ∧
    parseMIGLabels "garbage" = [] := by
  have h := parseMIGLabels_spec "p1" "z1" "g1" (by decide) (by decide)
    (by decide) (by decide) (by decide) (by decide)
  have hr := (parseMIGLabels_spec "p1" "r1" "g1" (by decide) (by decide)
    (by decide) (by decide) (by decide) (by decide)).2.1
  refine ⟨?_, ?_, h.2.2.1, h.2.2.2 "garbage" (by decide)⟩
  · have hz := h.1
    rwa [show ("projects/" ++ "p1" ++ "/zones/" ++ "z1" ++
      "/instanceGroupManagers/" ++ "g1" : String) =
      "projects/p1/zones/z1/instanceGroupManagers/g1" from by decide] at hz
  · rwa [show ("projects/" ++ "p1" ++ "/regions/" ++ "r1" ++
      "/instanceGroupManagers/" ++ "g1" : String) =
      "projects/p1/regions/r1/instanceGroupManagers/g1" from by decide] at hr

end ClaimTheorems

end GuestLogging
